import Mathlib

/-!
Shallow embedding of the buy-with-prime CDK construct library's
configuration-resolution logic, together with proofs about the
natural-language specification's claims.

Modelling conventions:
* an optional TypeScript field `x?: T` is `x : Option T`; an absent key is
  `none`;
* JavaScript truthiness on strings (`if (s)`) is explicit: `none` and
  `some ""` are falsy; on numbers, `none` and `some 0` are falsy; enum
  values and objects are truthy whenever present;
* object spread `{ ...defaults, ...props }` keeps a field of `props`
  whenever the key is present and falls back to the default otherwise;
* a `throw new Error(msg)` is `Except.error msg`;
* construct instantiations (`new Key`, `new AccessLogsBucket`, ...) are
  recorded as explicit data in the resolved-configuration records.
-/

/-! ### JavaScript helpers -/

/-- Truthiness of an optional string: `undefined` and `""` are falsy. -/
def jsTruthyStr : Option String → Bool
  | some s => !(s == "")
  | none => false

/-- JavaScript's `endsWith`, on the character level (the strings involved
are ASCII, where UTF-16 code units and characters coincide). -/
def strEndsWith (s suffix : String) : Bool :=
  suffix.data.isSuffixOf s.data

/-- Remove the last `n` characters of a string. -/
def strDropRight (s : String) (n : Nat) : String :=
  String.mk (s.data.take (s.data.length - n))

/-- Lexicographic comparison of character lists by code point; this is the
order of JavaScript's default `Array.sort` comparator on the (ASCII)
strings involved. -/
def charListLeb : List Char → List Char → Bool
  | [], _ => true
  | _ :: _, [] => false
  | a :: as, b :: bs => if a < b then true else if a = b then charListLeb as bs else false

/-- Lexicographic string order used by `Array.sort`. -/
def strLe (a b : String) : Prop := charListLeb a.data b.data = true

instance : DecidableRel strLe := fun a b => by
  unfold strLe
  infer_instance

/-- Falsiness of an optional number: `undefined` and `0` are falsy. -/
def jsFalsyNat : Option Nat → Bool
  | some n => n == 0
  | none => true

/-- The JavaScript `a || d` resolution for an optional numeric field:
the default replaces both `undefined` and the (falsy) explicit value `0`. -/
def jsOrNat (v : Option Nat) (d : Nat) : Nat :=
  match v with
  | some n => if n = 0 then d else n
  | none => d

/-- Object-spread override `{ ...{ field := fallback }, ...props }`:
the explicit field wins whenever its key is present. -/
def jsSpread {α : Type} (explicitVal fallback : Option α) : Option α :=
  match explicitVal with
  | some v => some v
  | none => fallback

/-- Insertion-order deduplication, as performed by `Array.from(new Set(xs))`:
the first occurrence of each element is kept. -/
def jsSetDedup {α : Type} [DecidableEq α] (l : List α) : List α :=
  l.foldl (fun acc x => if x ∈ acc then acc else acc ++ [x]) []

/-! ### cloudwatch-data-protection: data-identifiers.ts -/

def ADDRESS_DATA_IDENTIFIER : String := "arn:aws:dataprotection::aws:data-identifier/Address"
def AWS_SECRET_KEY_DATA_IDENTIFIER : String := "arn:aws:dataprotection::aws:data-identifier/AwsSecretKey"
def EMAIL_DATA_IDENTIFIER : String := "arn:aws:dataprotection::aws:data-identifier/EmailAddress"
def SSN_US_DATA_IDENTIFIER : String := "arn:aws:dataprotection::aws:data-identifier/Ssn-US"
def SSN_ES_DATA_IDENTIFIER : String := "arn:aws:dataprotection::aws:data-identifier/Ssn-ES"
def PHONE_NUM_US_DATA_IDENTIFIER : String := "arn:aws:dataprotection::aws:data-identifier/PhoneNumber-US"

/-- The default list of sensitive-data identifiers. -/
def DEFAULT_SENSITIVE_DATA_IDENTIFIERS : List String := [
  ADDRESS_DATA_IDENTIFIER,
  EMAIL_DATA_IDENTIFIER,
  SSN_US_DATA_IDENTIFIER,
  SSN_ES_DATA_IDENTIFIER,
  PHONE_NUM_US_DATA_IDENTIFIER,
  AWS_SECRET_KEY_DATA_IDENTIFIER
]

/-! ### cloudwatch-data-protection: data-protection-policy.ts -/

structure CwDataProtectionPolicyProps where
  auditLogGroupName : Option String := none
  addToDefaultDataIdentifiers : Option (List String) := none
  excludeFromDefaultDataIdentifiers : Option (List String) := none

/-- The `FindingsDestination` value of the audit statement: either the empty
object or a CloudWatchLogs log-group reference. -/
inductive FindingsDestination where
  | empty
  | cloudWatchLogs (logGroup : String)
deriving DecidableEq, Repr

def getCloudwatchAuditDestination (auditLogGroupName : String) : FindingsDestination :=
  FindingsDestination.cloudWatchLogs auditLogGroupName

/-- A policy statement's `Operation` field: `Deidentify` with an (empty)
`MaskConfig`, or `Audit` with a findings destination. -/
inductive DppOperation where
  | deidentifyMask
  | audit (findingsDestination : FindingsDestination)
deriving DecidableEq, Repr

structure DppStatement where
  sid : String
  operation : DppOperation
  dataIdentifier : List String
deriving DecidableEq, Repr

structure DataProtectionPolicyDoc where
  name : String
  description : String
  version : String
  statement : List DppStatement
deriving DecidableEq, Repr

/-- The data-identifier pipeline of `cloudwatchDataProtectionPolicy`:
start from the defaults, concatenate `addToDefaultDataIdentifiers`, remove
the first occurrence of each excluded identifier (`indexOf` + `splice`),
then deduplicate and sort (`Array.from(new Set(xs)).sort()`, the default
string sort being the lexicographic order on the all-ASCII identifiers). -/
def resolvedDataIdentifiers (props : CwDataProtectionPolicyProps) : List String :=
  let afterAdd := DEFAULT_SENSITIVE_DATA_IDENTIFIERS ++ props.addToDefaultDataIdentifiers.getD []
  let afterExclude := (props.excludeFromDefaultDataIdentifiers.getD []).foldl
    (fun acc identifier => acc.erase identifier) afterAdd
  (jsSetDedup afterExclude).insertionSort strLe

/-- `cloudwatchDataProtectionPolicy`: throws when the resolved identifier
list is empty, otherwise returns the fixed two-statement document. -/
def cloudwatchDataProtectionPolicy (props : CwDataProtectionPolicyProps) :
    Except String DataProtectionPolicyDoc :=
  let dataIdentifiers := resolvedDataIdentifiers props
  if dataIdentifiers.isEmpty then
    Except.error "There should be at least one data identifier in the policy."
  else
    Except.ok {
      name := "data-protection-policy"
      description := "Data protection policy for cloudwatch logs"
      version := "2021-06-01"
      statement := [
        { sid := "redact-data-protection-policy"
          operation := DppOperation.deidentifyMask
          dataIdentifier := dataIdentifiers },
        { sid := "audit-data-protection-policy"
          operation := DppOperation.audit
            (if jsTruthyStr props.auditLogGroupName then
              getCloudwatchAuditDestination (props.auditLogGroupName.getD "")
            else FindingsDestination.empty)
          dataIdentifier := dataIdentifiers }
      ]
    }

/-! ### Shared resource model -/

/-- An encryption key reference: either supplied by the caller or a fresh
`new Key(scope, id ++ "Key", { enableKeyRotation: true })` synthesized by
the wrapper. -/
inductive MasterKey where
  | provided (keyId : Nat)
  | created (resourceId : String)
deriving DecidableEq, Repr

/-! ### SQSQueue -/

inductive QueueEncryption where
  | UNENCRYPTED
  | KMS_MANAGED
  | KMS
  | SQS_MANAGED
deriving DecidableEq, Repr

def SQS_MAX_ALLOWED_QUEUE_NAME_LENGTH : Nat := 80
def SQS_DEFAULT_RECEIVE_COUNT : Nat := 100
def SQS_MAX_RETENTION_PERIOD_DAYS : Nat := 14

/-- A caller-supplied `DeadLetterQueue` record `{ queue, maxReceiveCount }`;
of the existing queue only its name is relevant here. -/
structure ProvidedDlq where
  queueName : String
  maxReceiveCount : Nat
deriving DecidableEq, Repr

structure SQSQueueProps where
  queueName : Option String := none
  fifo : Option Bool := none
  encryption : Option QueueEncryption := none
  encryptionMasterKey : Option MasterKey := none
  retentionPeriodDays : Option Nat := none
  requireSecureTransport : Option Bool := none
  enableDeadLetterQueue : Option Bool := none
  dlqMaxReceiveCount : Option Nat := none
  deadLetterQueue : Option ProvidedDlq := none
deriving DecidableEq, Repr

/-- The fields of a queue as forwarded to the underlying CDK `Queue`
primitive, plus whether the deny-insecure-transport policy was attached. -/
structure QueueAttrs where
  queueName : Option String
  fifo : Option Bool
  encryption : QueueEncryption
  encryptionMasterKey : Option MasterKey
  retentionPeriodDays : Nat
  requireSecureTransport : Bool
  securePolicyAttached : Bool
deriving DecidableEq, Repr

mutual
inductive ResolvedQueue where
  | mk (attrs : QueueAttrs) (deadLetterQueue : Option DlqEntry)
inductive DlqEntry where
  | provided (dlq : ProvidedDlq)
  | synthesized (queue : ResolvedQueue) (maxReceiveCount : Nat)
end

def ResolvedQueue.attrs : ResolvedQueue → QueueAttrs
  | .mk a _ => a

def ResolvedQueue.dlq : ResolvedQueue → Option DlqEntry
  | .mk _ d => d

/-- `SQSQueue.getQueueNameForFifoDlq`: demands the `.fifo` suffix, then
inserts `-dlq` right before it.  (Since the name ends with `.fifo`, the
`lastIndexOf('.fifo')` of the source is the position five characters
before the end, so `substr(0, idx)` is `dropRight 5` and
`substring(idx)` is `".fifo"`.) -/
def getQueueNameForFifoDlq (queueName : String) : Except String String :=
  let fifoSuffix := ".fifo"
  if !(strEndsWith queueName fifoSuffix) then
    Except.error ("Fifo queue must have name ending with .fifo suffix. Present queue name : " ++ queueName)
  else
    Except.ok (strDropRight queueName fifoSuffix.length ++ "-dlq" ++ fifoSuffix)

/-- Derivation of `deadLetterQueueName` in the `SQSQueue` constructor:
when the primary queue has a (truthy) name and no dead-letter queue was
supplied, derive `<name>-dlq` (for fifo queues via
`getQueueNameForFifoDlq`, which can throw) and drop it when it exceeds
`MAX_ALLOWED_QUEUE_NAME_LENGTH`; otherwise keep the supplied queue's name. -/
def deriveDlqName (props : SQSQueueProps) : Except String (Option String) :=
  if jsTruthyStr props.queueName && props.deadLetterQueue.isNone then
    match (if props.fifo.getD false then
            getQueueNameForFifoDlq (props.queueName.getD "")
          else Except.ok (props.queueName.getD "" ++ "-dlq")) with
    | Except.error e => Except.error e
    | Except.ok derived =>
      Except.ok (if derived.length > SQS_MAX_ALLOWED_QUEUE_NAME_LENGTH then none else some derived)
  else
    Except.ok (props.deadLetterQueue.map (·.queueName))

/-- `if (!props.encryption) { encryption = QueueEncryption.KMS; }`. -/
def sqsResolvedEncryption (props : SQSQueueProps) : QueueEncryption :=
  props.encryption.getD QueueEncryption.KMS

/-- `if (encryption === QueueEncryption.KMS && !encryptionMasterKey)` create
`new Key(scope, id + "Key", ...)`. -/
def sqsResolvedMasterKey (id : String) (props : SQSQueueProps) : Option MasterKey :=
  if sqsResolvedEncryption props = QueueEncryption.KMS && props.encryptionMasterKey.isNone then
    some (MasterKey.created (id ++ "Key"))
  else props.encryptionMasterKey

/-- `requireSecureTransport` defaults to `true` when not present. -/
def sqsResolvedSecureTransport (props : SQSQueueProps) : Bool :=
  props.requireSecureTransport.getD true

/-- The fields the `SQSQueue` constructor forwards to the CDK `Queue`
(via `super`) together with the secure-transport policy decision. -/
def sqsAttrs (id : String) (props : SQSQueueProps) : QueueAttrs :=
  { queueName := props.queueName
    fifo := props.fifo
    encryption := sqsResolvedEncryption props
    encryptionMasterKey := sqsResolvedMasterKey id props
    retentionPeriodDays := props.retentionPeriodDays.getD SQS_MAX_RETENTION_PERIOD_DAYS
    requireSecureTransport := sqsResolvedSecureTransport props
    securePolicyAttached := sqsResolvedSecureTransport props }

/-- The props of the dead-letter queue the constructor synthesizes
(`new SQSQueue(scope, id + "Dlq", {...})`): same encryption, same master
key and same secure-transport choice as the primary queue, fifo matching
the primary, the maximal retention period, and no DLQ of its own. -/
def synthDlqProps (id : String) (props : SQSQueueProps) (dlqName : Option String) :
    SQSQueueProps :=
  { queueName := dlqName
    fifo := props.fifo
    encryption := some (sqsResolvedEncryption props)
    encryptionMasterKey := sqsResolvedMasterKey id props
    retentionPeriodDays := some SQS_MAX_RETENTION_PERIOD_DAYS
    requireSecureTransport := some (sqsResolvedSecureTransport props)
    enableDeadLetterQueue := some false
    dlqMaxReceiveCount := none
    deadLetterQueue := none }

/-- The `SQSQueue` constructor.  The `fuel` argument only bounds the
recursion of the synthesized dead-letter queue's own construction (which
passes `enableDeadLetterQueue := some false` and therefore never recurses
again); `resolveSQS` below runs it with enough fuel. -/
def resolveSQSQueue : Nat → String → SQSQueueProps → Except String ResolvedQueue
  | 0, _, _ => Except.error "recursion depth exceeded"
  | fuel + 1, id, props =>
    match deriveDlqName props with
    | Except.error e => Except.error e
    | Except.ok deadLetterQueueName =>
      match props.deadLetterQueue with
      | some p =>
        Except.ok (ResolvedQueue.mk (sqsAttrs id props) (some (DlqEntry.provided p)))
      | none =>
        if props.enableDeadLetterQueue.getD true then
          match resolveSQSQueue fuel (id ++ "Dlq") (synthDlqProps id props deadLetterQueueName) with
          | Except.error e => Except.error e
          | Except.ok dlqQueue =>
            Except.ok (ResolvedQueue.mk (sqsAttrs id props)
              (some (DlqEntry.synthesized dlqQueue
                (props.dlqMaxReceiveCount.getD SQS_DEFAULT_RECEIVE_COUNT))))
        else
          Except.ok (ResolvedQueue.mk (sqsAttrs id props) none)

/-- Construction of an `SQSQueue` with scope-local construct id `id`. -/
def resolveSQS (id : String) (props : SQSQueueProps) : Except String ResolvedQueue :=
  resolveSQSQueue 2 id props

/-! ### s3-bucket.ts -/

inductive BucketEncryption where
  | UNENCRYPTED
  | KMS_MANAGED
  | S3_MANAGED
  | KMS
deriving DecidableEq, Repr

inductive BlockPublicAccess where
  | BLOCK_ALL
  | BLOCK_ACLS
deriving DecidableEq, Repr

structure LifecycleRule where
  ruleId : String
  enabled : Bool
  noncurrentVersionExpirationDays : Option Nat := none
deriving DecidableEq, Repr

def MAX_ALLOWED_BUCKET_NAME_LENGTH : Nat := 63
def NON_CURRENT_VERSION_EXPIRATION_DAYS : Nat := 90

/-- The server-access-logs destination of a resolved bucket: either the
caller-supplied bucket, or a fresh `AccessLogsBucket` synthesized with the
derived name and the caller's `requireSecureTransport` choice. -/
inductive ServerAccessLogs where
  | provided (bucketId : Nat)
  | created (bucketName : Option String) (requireSecureTransport : Option Bool)
deriving DecidableEq, Repr

structure BucketProps where
  bucketName : Option String := none
  encryption : Option BucketEncryption := none
  encryptionKey : Option MasterKey := none
  serverAccessLogsBucket : Option Nat := none
  enableAccessLogging : Option Bool := none
  enableDefaultLifecycleRules : Option Bool := none
  versioned : Option Bool := none
  lifecycleRules : Option (List LifecycleRule) := none
  blockPublicAccess : Option BlockPublicAccess := none
  requireSecureTransport : Option Bool := none
deriving DecidableEq, Repr

structure ResolvedBucket where
  bucketName : Option String
  encryption : BucketEncryption
  encryptionKey : Option MasterKey
  createdEncryptionKey : Bool
  serverAccessLogsBucket : Option ServerAccessLogs
  createdAccessLogBucket : Bool
  versioned : Bool
  lifecycleRules : Option (List LifecycleRule)
  blockPublicAccess : BlockPublicAccess
  secureTransportPolicyAttached : Bool
  kmsDenyPolicyAttached : Bool
deriving DecidableEq, Repr

/-- The `Bucket` constructor of `s3-bucket.ts`.  The object spread
`{ ...resolvedDefaults, ...props }` forwards each explicitly supplied field
unchanged; every resolved local below coincides with the explicit field
whenever the latter is present, so the resolved record equals the
forwarded one. -/
def resolveBucket (id : String) (props : BucketProps) : ResolvedBucket :=
  let encryption := props.encryption.getD BucketEncryption.KMS
  let createdEncryptionKey := encryption = BucketEncryption.KMS && props.encryptionKey.isNone
  let encryptionKey :=
    if createdEncryptionKey then some (MasterKey.created (id ++ "Key"))
    else props.encryptionKey
  let enableAccessLogging := props.enableAccessLogging.getD true
  let createdAccessLogBucket := enableAccessLogging && props.serverAccessLogsBucket.isNone
  let serverAccessLogsBucket :=
    if createdAccessLogBucket then
      let accessLogBucketName :=
        if jsTruthyStr props.bucketName then
          let derived := props.bucketName.getD "" ++ "-logs"
          if derived.length > MAX_ALLOWED_BUCKET_NAME_LENGTH then none else some derived
        else none
      some (ServerAccessLogs.created accessLogBucketName props.requireSecureTransport)
    else props.serverAccessLogsBucket.map ServerAccessLogs.provided
  let versioned := props.versioned.getD true
  let enableDefaultLifecycleRules := props.enableDefaultLifecycleRules.getD true
  let lifecycleRules :=
    if enableDefaultLifecycleRules && versioned && props.lifecycleRules.isNone then
      some [{ ruleId := "NonCurrentVersionPolicyForCompliance"
              enabled := true
              noncurrentVersionExpirationDays := some NON_CURRENT_VERSION_EXPIRATION_DAYS }]
    else props.lifecycleRules
  let blockPublicAccess := props.blockPublicAccess.getD BlockPublicAccess.BLOCK_ALL
  { bucketName := props.bucketName
    encryption := encryption
    encryptionKey := encryptionKey
    createdEncryptionKey := createdEncryptionKey
    serverAccessLogsBucket := serverAccessLogsBucket
    createdAccessLogBucket := createdAccessLogBucket
    versioned := versioned
    lifecycleRules := lifecycleRules
    blockPublicAccess := blockPublicAccess
    secureTransportPolicyAttached := props.requireSecureTransport.getD true
    kmsDenyPolicyAttached := encryption = BucketEncryption.KMS }

/-! ### sns/topic.ts -/

structure SnsTopicProps where
  enableEncryption : Option Bool := none
  masterKey : Option MasterKey := none
  requireSecureTransport : Option Bool := none
deriving DecidableEq, Repr

structure ResolvedTopic where
  masterKey : Option MasterKey
  createdMasterKey : Bool
  secureTransportPolicyAttached : Bool
deriving DecidableEq, Repr

/-- The `SnsTopic` constructor. -/
def resolveSnsTopic (id : String) (props : SnsTopicProps) : ResolvedTopic :=
  let enableEncryption := props.enableEncryption.getD true
  let createdMasterKey := enableEncryption && props.masterKey.isNone
  let masterKey :=
    if createdMasterKey then some (MasterKey.created (id ++ "Key"))
    else props.masterKey
  { masterKey := masterKey
    createdMasterKey := createdMasterKey
    secureTransportPolicyAttached := props.requireSecureTransport.getD true }

/-! ### dynamodb-table.ts -/

inductive BillingMode where
  | PAY_PER_REQUEST
  | PROVISIONED
deriving DecidableEq, Repr

inductive TableEncryption where
  | DEFAULT
  | CUSTOMER_MANAGED
  | AWS_MANAGED
deriving DecidableEq, Repr

structure EnableScalingProps where
  minCapacity : Nat
  maxCapacity : Nat
deriving DecidableEq, Repr

structure DynamoDBTableProps where
  billingMode : Option BillingMode := none
  readCapacity : Option Nat := none
  writeCapacity : Option Nat := none
  pointInTimeRecovery : Option Bool := none
  deletionProtection : Option Bool := none
  encryption : Option TableEncryption := none
  readScalingProps : Option EnableScalingProps := none
  writeScalingProps : Option EnableScalingProps := none
deriving DecidableEq, Repr

structure ResolvedTable where
  billingMode : BillingMode
  encryption : TableEncryption
  pointInTimeRecovery : Bool
  deletionProtection : Bool
  readCapacity : Option Nat
  writeCapacity : Option Nat
  usesProvisionedBillingMode : Bool
  autoScalingConfigured : Bool
deriving DecidableEq, Repr

/-- The `DynamoDBTable` constructor.  Note that here too the final
`updatedProps` spreads `...props` last, so an explicitly supplied (even
falsy) `readCapacity`/`writeCapacity` overrides the locally substituted
default again; the substituted `minCapacity` survives only for absent
keys. -/
def resolveDynamoDBTable (props : DynamoDBTableProps) : Except String ResolvedTable :=
  let billingMode := props.billingMode.getD BillingMode.PAY_PER_REQUEST
  match (if props.billingMode = some BillingMode.PROVISIONED then
          match props.readScalingProps, props.writeScalingProps with
          | some rs, some ws =>
            Except.ok
              ((if jsFalsyNat props.readCapacity then some rs.minCapacity else props.readCapacity),
               (if jsFalsyNat props.writeCapacity then some ws.minCapacity else props.writeCapacity))
          | _, _ =>
            Except.error "For provisioned DynamoDB table, auto-scaling readScalingProps & writeScalingProps are required."
        else Except.ok (props.readCapacity, props.writeCapacity)) with
  | Except.error e => Except.error e
  | Except.ok (readCapacity, writeCapacity) =>
    let pointInTimeRecovery := props.pointInTimeRecovery.getD true
    let deletionProtection := props.deletionProtection.getD true
    let encryption := props.encryption.getD TableEncryption.CUSTOMER_MANAGED
    let usesProvisionedBillingMode := props.billingMode = some BillingMode.PROVISIONED
    Except.ok {
      billingMode := billingMode
      encryption := encryption
      pointInTimeRecovery := pointInTimeRecovery
      deletionProtection := deletionProtection
      readCapacity := jsSpread props.readCapacity readCapacity
      writeCapacity := jsSpread props.writeCapacity writeCapacity
      usesProvisionedBillingMode := usesProvisionedBillingMode
      autoScalingConfigured := usesProvisionedBillingMode }

structure DynamoDBGlobalSecondaryIndexProps where
  indexName : String
  readCapacity : Option Nat := none
  writeCapacity : Option Nat := none
  readScalingProps : Option EnableScalingProps := none
  writeScalingProps : Option EnableScalingProps := none
deriving DecidableEq, Repr

structure ResolvedGsi where
  indexName : String
  readCapacity : Option Nat
  writeCapacity : Option Nat
  autoScalingConfigured : Bool
deriving DecidableEq, Repr

/-- `DynamoDBTable.addGlobalSecondaryIndex`, parameterized by the table's
`usesProvisionedBillingMode` flag. -/
def addGlobalSecondaryIndex (usesProvisionedBillingMode : Bool)
    (props : DynamoDBGlobalSecondaryIndexProps) : Except String ResolvedGsi :=
  match (if usesProvisionedBillingMode then
          match props.readScalingProps, props.writeScalingProps with
          | some rs, some ws =>
            Except.ok
              ((if jsFalsyNat props.readCapacity then some rs.minCapacity else props.readCapacity),
               (if jsFalsyNat props.writeCapacity then some ws.minCapacity else props.writeCapacity))
          | _, _ =>
            Except.error "For provisioned DynamoDB table, auto-scaling readScalingProps & writeScalingProps for global secondary index are required."
        else Except.ok (props.readCapacity, props.writeCapacity)) with
  | Except.error e => Except.error e
  | Except.ok (readCapacity, writeCapacity) =>
    Except.ok {
      indexName := props.indexName
      readCapacity := jsSpread props.readCapacity readCapacity
      writeCapacity := jsSpread props.writeCapacity writeCapacity
      autoScalingConfigured := usesProvisionedBillingMode }

/-! ### ecs/fargate: AlbFargateService -/

inductive FargatePlatformVersion where
  | LATEST
  | VERSION1_4
  | VERSION1_3
deriving DecidableEq, Repr

def DEFAULT_TASK_COUNT : Nat := 1
def DEFAULT_MIN_HEALTHY_PERCENT : Nat := 100
def DEFAULT_MAX_HEALTHY_PERCENT : Nat := 200
def DEFAULT_HEALTH_CHECK_GRACE_PERIOD_SECONDS : Nat := 60

structure AlbFargateServiceProps where
  desiredCount : Option Nat := none
  minHealthyPercent : Option Nat := none
  maxHealthyPercent : Option Nat := none
  healthCheckGracePeriodSeconds : Option Nat := none
  platformVersion : Option FargatePlatformVersion := none
  serviceName : Option String := none
deriving DecidableEq, Repr

structure ResolvedFargateService where
  desiredCount : Nat
  minHealthyPercent : Nat
  maxHealthyPercent : Nat
  healthCheckGracePeriodSeconds : Nat
  platformVersion : FargatePlatformVersion
  circuitBreakerRollback : Bool
  serviceName : Option String
deriving DecidableEq, Repr

/-- The `FargateService` configuration built by the `AlbFargateService`
constructor.  The numeric fields use JavaScript `||` (so an explicit `0`
falls back to the default); `platformVersion` and `healthCheckGracePeriod`
are objects/enum strings, truthy whenever present; `serviceName` is
included only when truthy. -/
def resolveAlbFargateService (props : AlbFargateServiceProps) : ResolvedFargateService :=
  { desiredCount := jsOrNat props.desiredCount DEFAULT_TASK_COUNT
    minHealthyPercent := jsOrNat props.minHealthyPercent DEFAULT_MIN_HEALTHY_PERCENT
    maxHealthyPercent := jsOrNat props.maxHealthyPercent DEFAULT_MAX_HEALTHY_PERCENT
    healthCheckGracePeriodSeconds :=
      props.healthCheckGracePeriodSeconds.getD DEFAULT_HEALTH_CHECK_GRACE_PERIOD_SECONDS
    platformVersion := props.platformVersion.getD FargatePlatformVersion.LATEST
    circuitBreakerRollback := true
    serviceName := if jsTruthyStr props.serviceName then props.serviceName else none }

/-! ### Result accessors -/

/-- Whether a resolved queue's dead-letter-queue slot holds a freshly
synthesized queue (as opposed to a caller-supplied one or nothing). -/
def isSynthesizedDlq : Option DlqEntry → Bool
  | some (DlqEntry.synthesized _ _) => true
  | _ => false

/-! ### Helper lemmas -/

theorem charListLeb_trans :
    ∀ (l₁ l₂ l₃ : List Char), charListLeb l₁ l₂ = true → charListLeb l₂ l₃ = true →
      charListLeb l₁ l₃ = true
  | [], _, _, _, _ => rfl
  | _ :: _, [], _, h, _ => by simp [charListLeb] at h
  | _ :: _, _ :: _, [], _, h => by simp [charListLeb] at h
  | a :: as, b :: bs, c :: cs, h₁, h₂ => by
    simp only [charListLeb] at h₁ h₂ ⊢
    by_cases hab : a < b
    · by_cases hbc : b < c
      · rw [if_pos (lt_trans hab hbc)]
      · simp only [if_neg hbc] at h₂
        by_cases hbc' : b = c
        · subst hbc'
          rw [if_pos hab]
        · simp [hbc'] at h₂
    · simp only [if_neg hab] at h₁
      by_cases hab' : a = b
      · subst hab'
        by_cases hac : a < c
        · rw [if_pos hac]
        · simp only [if_neg hac] at h₂ ⊢
          by_cases hac' : a = c
          · simp only [if_pos hac'] at h₂ ⊢
            rw [if_pos rfl] at h₁
            exact charListLeb_trans as bs cs h₁ h₂
          · simp [hac'] at h₂
      · simp [hab'] at h₁

theorem charListLeb_total : ∀ (l₁ l₂ : List Char),
    charListLeb l₁ l₂ = true ∨ charListLeb l₂ l₁ = true
  | [], _ => Or.inl rfl
  | _ :: _, [] => Or.inr rfl
  | a :: as, b :: bs => by
    simp only [charListLeb]
    rcases lt_trichotomy a b with h | h | h
    · rw [if_pos h]
      exact Or.inl rfl
    · subst h
      simp only [lt_irrefl, if_neg, if_pos rfl, reduceIte]
      exact charListLeb_total as bs
    · rw [if_pos h]
      exact Or.inr rfl

instance : IsTrans String strLe :=
  ⟨fun a b c h₁ h₂ => charListLeb_trans a.data b.data c.data h₁ h₂⟩

instance : IsTotal String strLe :=
  ⟨fun a b => charListLeb_total a.data b.data⟩

theorem mem_foldl_setInsert {α : Type} [DecidableEq α] (l acc : List α) (x : α) :
    x ∈ l.foldl (fun acc x => if x ∈ acc then acc else acc ++ [x]) acc ↔ x ∈ acc ∨ x ∈ l := by
  induction l generalizing acc with
  | nil => simp
  | cons a l ih =>
    simp only [List.foldl_cons]
    rw [ih]
    by_cases h : a ∈ acc
    · rw [if_pos h]
      simp only [List.mem_cons]
      constructor
      · rintro (hx | hx)
        · exact Or.inl hx
        · exact Or.inr (Or.inr hx)
      · rintro (hx | rfl | hx)
        · exact Or.inl hx
        · exact Or.inl h
        · exact Or.inr hx
    · rw [if_neg h]
      simp only [List.mem_append, List.mem_singleton, List.mem_cons]
      tauto

theorem nodup_foldl_setInsert {α : Type} [DecidableEq α] (l : List α) (acc : List α)
    (h : acc.Nodup) :
    (l.foldl (fun acc x => if x ∈ acc then acc else acc ++ [x]) acc).Nodup := by
  induction l generalizing acc with
  | nil => simpa using h
  | cons a l ih =>
    simp only [List.foldl_cons]
    by_cases hmem : a ∈ acc
    · rw [if_pos hmem]; exact ih acc h
    · rw [if_neg hmem]
      refine ih _ ?_
      simp only [List.nodup_append, List.nodup_singleton, List.disjoint_singleton]
      exact ⟨h, trivial, hmem⟩

theorem mem_jsSetDedup {α : Type} [DecidableEq α] (l : List α) (x : α) :
    x ∈ jsSetDedup l ↔ x ∈ l := by
  unfold jsSetDedup
  rw [mem_foldl_setInsert]
  simp

theorem nodup_jsSetDedup {α : Type} [DecidableEq α] (l : List α) : (jsSetDedup l).Nodup :=
  nodup_foldl_setInsert l [] List.nodup_nil

theorem le_count_foldl_erase {α : Type} [DecidableEq α] (excl : List α) (l : List α) (x : α) :
    l.count x - excl.count x ≤ (excl.foldl (fun acc i => acc.erase i) l).count x := by
  induction excl generalizing l with
  | nil => simp
  | cons e es ih =>
    simp only [List.foldl_cons]
    refine le_trans ?_ (ih (l.erase e))
    by_cases hex : e = x
    · subst hex
      rw [List.count_cons_self, List.count_erase_self]
      omega
    · rw [List.count_erase_of_ne (Ne.symm hex), List.count_cons_of_ne (Ne.symm hex)]

theorem sorted_resolvedDataIdentifiers (props : CwDataProtectionPolicyProps) :
    List.Sorted strLe (resolvedDataIdentifiers props) := by
  unfold resolvedDataIdentifiers
  exact List.sorted_insertionSort _ _

theorem nodup_resolvedDataIdentifiers (props : CwDataProtectionPolicyProps) :
    (resolvedDataIdentifiers props).Nodup := by
  unfold resolvedDataIdentifiers
  exact ((List.perm_insertionSort _ _).nodup_iff).mpr (nodup_jsSetDedup _)

theorem mem_resolvedDataIdentifiers (props : CwDataProtectionPolicyProps) (x : String) :
    x ∈ resolvedDataIdentifiers props ↔
      x ∈ (props.excludeFromDefaultDataIdentifiers.getD []).foldl (fun acc i => acc.erase i)
            (DEFAULT_SENSITIVE_DATA_IDENTIFIERS ++ props.addToDefaultDataIdentifiers.getD []) := by
  unfold resolvedDataIdentifiers
  rw [List.mem_insertionSort]
  exact mem_jsSetDedup _ _

theorem resolveSQSQueue_ok_attrs (fuel : Nat) (id : String) (props : SQSQueueProps)
    (q : ResolvedQueue) (h : resolveSQSQueue (fuel + 1) id props = Except.ok q) :
    q.attrs = sqsAttrs id props := by
  simp only [resolveSQSQueue] at h
  split at h
  · exact absurd h (by simp)
  · split at h
    · injection h with h
      subst h
      rfl
    · split at h
      · split at h
        · exact absurd h (by simp)
        · injection h with h
          subst h
          rfl
      · injection h with h
        subst h
        rfl

theorem resolveSQSQueue_ok_dlq (fuel : Nat) (id : String) (props : SQSQueueProps)
    (q : ResolvedQueue) (h : resolveSQSQueue (fuel + 1) id props = Except.ok q) :
    (∀ p, props.deadLetterQueue = some p → q.dlq = some (DlqEntry.provided p)) ∧
    (props.deadLetterQueue = none → props.enableDeadLetterQueue.getD true = false →
      q.dlq = none) ∧
    (props.deadLetterQueue = none → props.enableDeadLetterQueue.getD true = true →
      ∃ dname dq, deriveDlqName props = Except.ok dname ∧
        resolveSQSQueue fuel (id ++ "Dlq") (synthDlqProps id props dname) = Except.ok dq ∧
        q.dlq = some (DlqEntry.synthesized dq
          (props.dlqMaxReceiveCount.getD SQS_DEFAULT_RECEIVE_COUNT))) := by
  simp only [resolveSQSQueue] at h
  split at h
  · exact absurd h (by simp)
  · rename_i dname hdname
    split at h
    · rename_i p hp
      injection h with h
      subst h
      refine ⟨?_, ?_, ?_⟩
      · intro p' hp'
        rw [hp] at hp'
        injection hp' with hp'
        subst hp'
        rfl
      · intro hnone
        rw [hp] at hnone
        exact absurd hnone (by simp)
      · intro hnone
        rw [hp] at hnone
        exact absurd hnone (by simp)
    · rename_i hp
      split at h
      · rename_i hen
        split at h
        · exact absurd h (by simp)
        · rename_i dq hdq
          injection h with h
          subst h
          refine ⟨?_, ?_, ?_⟩
          · intro p' hp'
            rw [hp] at hp'
            exact absurd hp'.symm (by simp)
          · intro _ hen'
            rw [hen'] at hen
            exact absurd hen (by simp)
          · intro _ _
            exact ⟨dname, dq, hdname, hdq, rfl⟩
      · rename_i hen
        injection h with h
        subst h
        refine ⟨?_, ?_, ?_⟩
        · intro p' hp'
          rw [hp] at hp'
          exact absurd hp'.symm (by simp)
        · intro _ _
          rfl
        · intro _ hen'
          exact absurd hen' hen

theorem resolveSQSQueue_synthesized (fuel : Nat) (id : String) (props : SQSQueueProps)
    (q dq : ResolvedQueue) (m : Nat)
    (h : resolveSQSQueue (fuel + 1) id props = Except.ok q)
    (hdlq : q.dlq = some (DlqEntry.synthesized dq m)) :
    props.deadLetterQueue = none ∧ props.enableDeadLetterQueue.getD true = true ∧
    ∃ dname, deriveDlqName props = Except.ok dname ∧
      resolveSQSQueue fuel (id ++ "Dlq") (synthDlqProps id props dname) = Except.ok dq ∧
      m = props.dlqMaxReceiveCount.getD SQS_DEFAULT_RECEIVE_COUNT := by
  simp only [resolveSQSQueue] at h
  split at h
  · exact absurd h (by simp)
  · rename_i dname hdname
    split at h
    · rename_i p hp
      injection h with h
      subst h
      simp [ResolvedQueue.dlq] at hdlq
    · rename_i hp
      split at h
      · rename_i hen
        split at h
        · exact absurd h (by simp)
        · rename_i dq' hdq'
          injection h with h
          subst h
          simp only [ResolvedQueue.dlq] at hdlq
          injection hdlq with hdlq
          injection hdlq with h1 h2
          subst h1
          subst h2
          exact ⟨hp, hen, dname, hdname, hdq', rfl⟩
      · rename_i hen
        injection h with h
        subst h
        simp [ResolvedQueue.dlq] at hdlq

/-- Resolution of an optional boolean that defaults to `true`. -/
theorem getD_true_iff (o : Option Bool) : o.getD true = true ↔ o ≠ some false := by
  cases o with
  | none => simp
  | some b => cases b <;> simp

/-- The synthesized dead-letter queue resolves the same master key as its
primary queue: when the primary's resolved encryption is KMS the primary's
resolved key is always present, so the DLQ never creates a second key. -/
theorem sqsResolvedMasterKey_synth (id : String) (props : SQSQueueProps)
    (dname : Option String) :
    sqsResolvedMasterKey (id ++ "Dlq") (synthDlqProps id props dname) =
      sqsResolvedMasterKey id props := by
  cases hk : props.encryptionMasterKey with
  | some k =>
    simp [sqsResolvedMasterKey, synthDlqProps, sqsResolvedEncryption, hk]
  | none =>
    by_cases h1 : props.encryption.getD QueueEncryption.KMS = QueueEncryption.KMS
    · simp [sqsResolvedMasterKey, synthDlqProps, sqsResolvedEncryption, hk, h1]
    · simp [sqsResolvedMasterKey, synthDlqProps, sqsResolvedEncryption, hk, h1]

/-! ### Claim C1 -/

/-- C1 (amended): whenever `cloudwatchDataProtectionPolicy` returns a
document, the document has the fixed name, description and version
`2021-06-01` and exactly two statements — a de-identification (mask)
statement with a sorted, deduplicated identifier list and an audit
statement with the identical list — whose `FindingsDestination` references
the supplied audit log group when `auditLogGroupName` is set to a
*non-empty* string, and is the empty object otherwise (including for an
explicitly supplied empty string, which JavaScript treats as falsy). -/
theorem C1_policy_document_shape (props : CwDataProtectionPolicyProps)
    (doc : DataProtectionPolicyDoc)
    (h : cloudwatchDataProtectionPolicy props = Except.ok doc) :
    doc.name = "data-protection-policy" ∧
    doc.description = "Data protection policy for cloudwatch logs" ∧
    doc.version = "2021-06-01" ∧
    ∃ ids dest,
      ids ≠ [] ∧ List.Sorted strLe ids ∧ ids.Nodup ∧
      doc.statement = [
        { sid := "redact-data-protection-policy"
          operation := DppOperation.deidentifyMask
          dataIdentifier := ids },
        { sid := "audit-data-protection-policy"
          operation := DppOperation.audit dest
          dataIdentifier := ids } ] ∧
      (∀ s, props.auditLogGroupName = some s → s ≠ "" →
        dest = FindingsDestination.cloudWatchLogs s) ∧
      ((props.auditLogGroupName = none ∨ props.auditLogGroupName = some "") →
        dest = FindingsDestination.empty) := by
  simp only [cloudwatchDataProtectionPolicy] at h
  by_cases hE : (resolvedDataIdentifiers props).isEmpty
  · rw [if_pos hE] at h
    exact absurd h (by simp)
  · rw [if_neg hE] at h
    injection h with h
    subst h
    refine ⟨rfl, rfl, rfl, resolvedDataIdentifiers props, _, ?_, ?_, ?_, rfl, ?_, ?_⟩
    · intro hnil
      rw [hnil] at hE
      exact hE rfl
    · exact sorted_resolvedDataIdentifiers props
    · exact nodup_resolvedDataIdentifiers props
    · intro s hs hne
      rw [hs]
      simp [jsTruthyStr, getCloudwatchAuditDestination, hne]
    · rintro (hs | hs) <;> rw [hs] <;> simp [jsTruthyStr]

/-- C1 as stated is false: with `auditLogGroupName` explicitly set to the
empty string, a document is produced whose audit statement carries the
empty `FindingsDestination`, not a reference to the supplied log group. -/
theorem C1_counterexample :
    ({ auditLogGroupName := some "" } : CwDataProtectionPolicyProps).auditLogGroupName =
      some "" ∧
    (cloudwatchDataProtectionPolicy { auditLogGroupName := some "" }).map
        (fun doc => doc.statement.map (fun st => st.operation)) =
      Except.ok [DppOperation.deidentifyMask, DppOperation.audit FindingsDestination.empty] ∧
    DppOperation.audit FindingsDestination.empty ≠
      DppOperation.audit (getCloudwatchAuditDestination "") := by
  refine ⟨rfl, by rfl, by decide⟩

/-- Witness for C1 at a concrete input with a non-empty audit log group. -/
theorem C1_witness :
    cloudwatchDataProtectionPolicy { auditLogGroupName := some "audit-lg" } =
      Except.ok {
        name := "data-protection-policy"
        description := "Data protection policy for cloudwatch logs"
        version := "2021-06-01"
        statement := [
          { sid := "redact-data-protection-policy"
            operation := DppOperation.deidentifyMask
            dataIdentifier := [ADDRESS_DATA_IDENTIFIER, AWS_SECRET_KEY_DATA_IDENTIFIER,
              EMAIL_DATA_IDENTIFIER, PHONE_NUM_US_DATA_IDENTIFIER,
              SSN_ES_DATA_IDENTIFIER, SSN_US_DATA_IDENTIFIER] },
          { sid := "audit-data-protection-policy"
            operation := DppOperation.audit (FindingsDestination.cloudWatchLogs "audit-lg")
            dataIdentifier := [ADDRESS_DATA_IDENTIFIER, AWS_SECRET_KEY_DATA_IDENTIFIER,
              EMAIL_DATA_IDENTIFIER, PHONE_NUM_US_DATA_IDENTIFIER,
              SSN_ES_DATA_IDENTIFIER, SSN_US_DATA_IDENTIFIER] } ] } ∧
    ({ name := "data-protection-policy"
       description := "Data protection policy for cloudwatch logs"
       version := "2021-06-01"
       statement := [
         { sid := "redact-data-protection-policy"
           operation := DppOperation.deidentifyMask
           dataIdentifier := [ADDRESS_DATA_IDENTIFIER, AWS_SECRET_KEY_DATA_IDENTIFIER,
             EMAIL_DATA_IDENTIFIER, PHONE_NUM_US_DATA_IDENTIFIER,
             SSN_ES_DATA_IDENTIFIER, SSN_US_DATA_IDENTIFIER] },
         { sid := "audit-data-protection-policy"
           operation := DppOperation.audit (FindingsDestination.cloudWatchLogs "audit-lg")
           dataIdentifier := [ADDRESS_DATA_IDENTIFIER, AWS_SECRET_KEY_DATA_IDENTIFIER,
             EMAIL_DATA_IDENTIFIER, PHONE_NUM_US_DATA_IDENTIFIER,
             SSN_ES_DATA_IDENTIFIER, SSN_US_DATA_IDENTIFIER] } ] } :
      DataProtectionPolicyDoc).version = "2021-06-01" := by
  refine ⟨by rfl, (C1_policy_document_shape { auditLogGroupName := some "audit-lg" } _ (by rfl)).2.2.1⟩

/-! ### Claim C2 -/

/-- C2: the identifier list placed in a synthesized policy document is
sorted, deduplicated and non-empty (and identical in both statements), and
the function throws exactly when the resolved list is empty. -/
theorem C2_identifier_list_invariants (props : CwDataProtectionPolicyProps) :
    ((cloudwatchDataProtectionPolicy props).isOk = false ↔
      resolvedDataIdentifiers props = []) ∧
    ∀ doc, cloudwatchDataProtectionPolicy props = Except.ok doc →
      doc.statement.map (fun st => st.dataIdentifier) =
        [resolvedDataIdentifiers props, resolvedDataIdentifiers props] ∧
      List.Sorted strLe (resolvedDataIdentifiers props) ∧
      (resolvedDataIdentifiers props).Nodup ∧
      resolvedDataIdentifiers props ≠ [] := by
  constructor
  · simp only [cloudwatchDataProtectionPolicy]
    by_cases hE : (resolvedDataIdentifiers props).isEmpty
    · rw [if_pos hE]
      constructor
      · intro _
        exact List.isEmpty_iff.mp hE
      · intro _
        rfl
    · rw [if_neg hE]
      constructor
      · intro h
        simp [Except.isOk, Except.toBool] at h
      · intro h
        rw [h] at hE
        exact absurd rfl hE
  · intro doc h
    simp only [cloudwatchDataProtectionPolicy] at h
    by_cases hE : (resolvedDataIdentifiers props).isEmpty
    · rw [if_pos hE] at h
      exact absurd h (by simp)
    · rw [if_neg hE] at h
      injection h with h
      subst h
      refine ⟨rfl, sorted_resolvedDataIdentifiers props, nodup_resolvedDataIdentifiers props, ?_⟩
      intro hnil
      rw [hnil] at hE
      exact hE rfl

/-- Witness for C2 at the all-defaults input. -/
theorem C2_witness :
    (cloudwatchDataProtectionPolicy {}).isOk = true ∧
    (List.Sorted strLe (resolvedDataIdentifiers {}) ∧
      (resolvedDataIdentifiers {}).Nodup ∧
      resolvedDataIdentifiers ({} : CwDataProtectionPolicyProps) ≠ []) :=
  ⟨by rfl, ((C2_identifier_list_invariants {}).2 _ (by rfl)).2⟩

/-! ### Claim C9 -/

/-- C9: an identifier occurring both in the default list and in
`addToDefaultDataIdentifiers`, and exactly once in
`excludeFromDefaultDataIdentifiers`, still appears in the resulting
policy's identifier list: exclusion removes only the first occurrence and
runs before deduplication. -/
theorem C9_duplicate_survives_exclusion (props : CwDataProtectionPolicyProps) (x : String)
    (hdef : x ∈ DEFAULT_SENSITIVE_DATA_IDENTIFIERS)
    (hadd : x ∈ props.addToDefaultDataIdentifiers.getD [])
    (hexc : (props.excludeFromDefaultDataIdentifiers.getD []).count x = 1) :
    x ∈ resolvedDataIdentifiers props ∧
    (cloudwatchDataProtectionPolicy props).isOk = true ∧
    ∀ doc st, cloudwatchDataProtectionPolicy props = Except.ok doc →
      st ∈ doc.statement → x ∈ st.dataIdentifier := by
  have hcount2 :
      2 ≤ (DEFAULT_SENSITIVE_DATA_IDENTIFIERS ++
            props.addToDefaultDataIdentifiers.getD []).count x := by
    rw [List.count_append]
    have h1 := List.one_le_count_iff.mpr hdef
    have h2 := List.one_le_count_iff.mpr hadd
    omega
  have hsurv :
      1 ≤ ((props.excludeFromDefaultDataIdentifiers.getD []).foldl
            (fun acc i => acc.erase i)
            (DEFAULT_SENSITIVE_DATA_IDENTIFIERS ++
              props.addToDefaultDataIdentifiers.getD [])).count x := by
    have hle := le_count_foldl_erase (props.excludeFromDefaultDataIdentifiers.getD [])
      (DEFAULT_SENSITIVE_DATA_IDENTIFIERS ++ props.addToDefaultDataIdentifiers.getD []) x
    omega
  have hmem : x ∈ resolvedDataIdentifiers props := by
    rw [mem_resolvedDataIdentifiers]
    exact List.one_le_count_iff.mp hsurv
  have hne : resolvedDataIdentifiers props ≠ [] := by
    intro hnil
    rw [hnil] at hmem
    exact absurd hmem (List.not_mem_nil x)
  have hE : (resolvedDataIdentifiers props).isEmpty = false := by
    cases hr : resolvedDataIdentifiers props with
    | nil => exact absurd hr hne
    | cons a l => rfl
  refine ⟨hmem, ?_, ?_⟩
  · simp only [cloudwatchDataProtectionPolicy, hE]
    rfl
  · intro doc st h hst
    simp only [cloudwatchDataProtectionPolicy, hE, Bool.false_eq_true, if_false] at h
    injection h with h
    subst h
    simp only [List.mem_cons, List.not_mem_nil, or_false] at hst
    rcases hst with rfl | rfl <;> exact hmem

/-- Witness for C9: the Address identifier is added a second time and
excluded once, yet survives in the synthesized list. -/
theorem C9_witness :
    ADDRESS_DATA_IDENTIFIER ∈ resolvedDataIdentifiers {
      addToDefaultDataIdentifiers := some [ADDRESS_DATA_IDENTIFIER]
      excludeFromDefaultDataIdentifiers := some [ADDRESS_DATA_IDENTIFIER] } ∧
    (cloudwatchDataProtectionPolicy {
      addToDefaultDataIdentifiers := some [ADDRESS_DATA_IDENTIFIER]
      excludeFromDefaultDataIdentifiers := some [ADDRESS_DATA_IDENTIFIER] }).isOk = true := by
  have h := C9_duplicate_survives_exclusion {
      addToDefaultDataIdentifiers := some [ADDRESS_DATA_IDENTIFIER]
      excludeFromDefaultDataIdentifiers := some [ADDRESS_DATA_IDENTIFIER] }
    ADDRESS_DATA_IDENTIFIER (by decide) (by decide) (by decide)
  exact ⟨h.1, h.2.1⟩

/-! ### Claim C10 -/

/-- C10: every auto-synthesized dead-letter queue uses the same encryption
mode, master key and secure-transport setting as its primary queue, the
same fifo choice, a 14-day retention period, no dead-letter queue of its
own, and the caller's `dlqMaxReceiveCount` (default 100). -/
theorem C10_synthesized_dlq_invariants (id : String) (props : SQSQueueProps)
    (q dq : ResolvedQueue) (m : Nat)
    (h : resolveSQS id props = Except.ok q)
    (hdlq : q.dlq = some (DlqEntry.synthesized dq m)) :
    dq.attrs.encryption = q.attrs.encryption ∧
    dq.attrs.encryptionMasterKey = q.attrs.encryptionMasterKey ∧
    dq.attrs.requireSecureTransport = q.attrs.requireSecureTransport ∧
    dq.attrs.fifo = q.attrs.fifo ∧
    dq.attrs.retentionPeriodDays = SQS_MAX_RETENTION_PERIOD_DAYS ∧
    dq.dlq = none ∧
    m = props.dlqMaxReceiveCount.getD SQS_DEFAULT_RECEIVE_COUNT := by
  have hq := resolveSQSQueue_ok_attrs 1 id props q h
  obtain ⟨hp, hen, dname, hdname, hdq, hm⟩ :=
    resolveSQSQueue_synthesized 1 id props q dq m h hdlq
  have hda := resolveSQSQueue_ok_attrs 0 (id ++ "Dlq") (synthDlqProps id props dname) dq hdq
  have hddlq :=
    (resolveSQSQueue_ok_dlq 0 (id ++ "Dlq") (synthDlqProps id props dname) dq hdq).2.1 rfl rfl
  rw [hq, hda]
  exact ⟨rfl, sqsResolvedMasterKey_synth id props dname, rfl, rfl, rfl, hddlq, hm⟩

/-- Witness for C10 at the all-defaults queue props. -/
theorem C10_witness :
    resolveSQS "Q" {} = Except.ok (ResolvedQueue.mk
      { queueName := none, fifo := none, encryption := QueueEncryption.KMS
        encryptionMasterKey := some (MasterKey.created "QKey")
        retentionPeriodDays := 14, requireSecureTransport := true, securePolicyAttached := true }
      (some (DlqEntry.synthesized (ResolvedQueue.mk
        { queueName := none, fifo := none, encryption := QueueEncryption.KMS
          encryptionMasterKey := some (MasterKey.created "QKey")
          retentionPeriodDays := 14, requireSecureTransport := true, securePolicyAttached := true }
        none) 100))) ∧
    (ResolvedQueue.mk
      { queueName := none, fifo := none, encryption := QueueEncryption.KMS
        encryptionMasterKey := some (MasterKey.created "QKey")
        retentionPeriodDays := 14, requireSecureTransport := true, securePolicyAttached := true }
      none).dlq = none := by
  refine ⟨rfl, ?_⟩
  exact (C10_synthesized_dlq_invariants "Q" {} _ _ _ rfl rfl).2.2.2.2.2.1

/-! ### Claim C4 -/

/-- C4: each wrapper synthesizes its companion resource exactly when the
resolved mode implies it and no explicit companion was supplied: the
bucket's KMS key (encryption resolves to KMS, no `encryptionKey`), the
bucket's access-log bucket (`enableAccessLogging` resolves true, no
`serverAccessLogsBucket`), the queue's dead-letter queue
(`enableDeadLetterQueue` resolves true, no `deadLetterQueue`), and the
topic's master key (`enableEncryption` resolves true, no `masterKey`). -/
theorem C4_companion_synthesis :
    (∀ id props, (resolveBucket id props).createdEncryptionKey = true ↔
      (props.encryption.getD BucketEncryption.KMS = BucketEncryption.KMS ∧
        props.encryptionKey = none)) ∧
    (∀ id props, (resolveBucket id props).createdAccessLogBucket = true ↔
      (props.enableAccessLogging.getD true = true ∧ props.serverAccessLogsBucket = none)) ∧
    (∀ id props q, resolveSQS id props = Except.ok q →
      (isSynthesizedDlq q.dlq = true ↔
        (props.enableDeadLetterQueue.getD true = true ∧ props.deadLetterQueue = none))) ∧
    (∀ id props, (resolveSnsTopic id props).createdMasterKey = true ↔
      (props.enableEncryption.getD true = true ∧ props.masterKey = none)) := by
  refine ⟨?_, ?_, ?_, ?_⟩
  · intro id props
    simp [resolveBucket, Option.isNone_iff_eq_none]
  · intro id props
    simp [resolveBucket, Option.isNone_iff_eq_none]
  · intro id props q h
    have hd := resolveSQSQueue_ok_dlq 1 id props q h
    constructor
    · intro hsyn
      cases hp : props.deadLetterQueue with
      | some p =>
        rw [hd.1 p hp] at hsyn
        simp [isSynthesizedDlq] at hsyn
      | none =>
        cases hen : props.enableDeadLetterQueue.getD true with
        | false =>
          rw [hd.2.1 hp hen] at hsyn
          simp [isSynthesizedDlq] at hsyn
        | true => exact ⟨rfl, rfl⟩
    · rintro ⟨hen, hp⟩
      obtain ⟨dname, dq, _, _, hq⟩ := hd.2.2 hp hen
      rw [hq]
      rfl
  · intro id props
    simp [resolveSnsTopic, Option.isNone_iff_eq_none]

/-- Witness for C4, showing each companion synthesized at the default
props and the queue hypothesis discharged at a concrete input. -/
theorem C4_witness :
    (resolveBucket "B" {}).createdEncryptionKey = true ∧
    (resolveBucket "B" {}).createdAccessLogBucket = true ∧
    ((resolveSQS "Q" {}).map (fun q => isSynthesizedDlq q.dlq) = Except.ok true) ∧
    (resolveSnsTopic "T" {}).createdMasterKey = true := by
  refine ⟨(C4_companion_synthesis.1 "B" {}).mpr ⟨rfl, rfl⟩,
    (C4_companion_synthesis.2.1 "B" {}).mpr ⟨rfl, rfl⟩, ?_,
    (C4_companion_synthesis.2.2.2 "T" {}).mpr ⟨rfl, rfl⟩⟩
  have h := (C4_companion_synthesis.2.2.1 "Q" {} _ rfl).mpr ⟨rfl, rfl⟩
  rw [← h]
  rfl

/-! ### Claim C5 -/

/-- C5: the deny-insecure-transport policy statement is attached exactly
when `requireSecureTransport` is not explicitly `false`, for Bucket,
SQSQueue and SnsTopic. -/
theorem C5_secure_transport_default :
    (∀ id props, (resolveBucket id props).secureTransportPolicyAttached = true ↔
      props.requireSecureTransport ≠ some false) ∧
    (∀ id props q, resolveSQS id props = Except.ok q →
      (q.attrs.securePolicyAttached = true ↔ props.requireSecureTransport ≠ some false)) ∧
    (∀ id props, (resolveSnsTopic id props).secureTransportPolicyAttached = true ↔
      props.requireSecureTransport ≠ some false) := by
  refine ⟨?_, ?_, ?_⟩
  · intro id props
    have : (resolveBucket id props).secureTransportPolicyAttached =
        props.requireSecureTransport.getD true := rfl
    rw [this]
    exact getD_true_iff _
  · intro id props q h
    rw [resolveSQSQueue_ok_attrs 1 id props q h]
    have : (sqsAttrs id props).securePolicyAttached =
        props.requireSecureTransport.getD true := rfl
    rw [this]
    exact getD_true_iff _
  · intro id props
    have : (resolveSnsTopic id props).secureTransportPolicyAttached =
        props.requireSecureTransport.getD true := rfl
    rw [this]
    exact getD_true_iff _

/-- Witness for C5 at concrete inputs. -/
theorem C5_witness :
    (resolveBucket "B" {}).secureTransportPolicyAttached = true ∧
    ((resolveSQS "Q" {}).map (fun q => q.attrs.securePolicyAttached) = Except.ok true) ∧
    (resolveSnsTopic "T" {}).secureTransportPolicyAttached = true := by
  refine ⟨(C5_secure_transport_default.1 "B" {}).mpr (by simp),
    ?_, (C5_secure_transport_default.2.2 "T" {}).mpr (by simp)⟩
  have h := (C5_secure_transport_default.2.1 "Q" {} _ rfl).mpr (by simp)
  rw [← h]
  rfl

/-! ### Claim C6 -/

/-- C6 (amended): for a FIFO queue with an explicit *non-empty* queue name
and no explicit dead-letter queue, construction throws when the name does
not end in `.fifo`, and otherwise the derived dead-letter-queue name
inserts `-dlq` immediately before the final `.fifo`.  (An explicit empty
queue name is falsy in JavaScript and skips the validation entirely.) -/
theorem C6_fifo_dlq_naming (id : String) (props : SQSQueueProps) (n : String)
    (hqn : props.queueName = some n) (hne : n ≠ "")
    (hfifo : props.fifo.getD false = true)
    (hnodlq : props.deadLetterQueue = none) :
    (strEndsWith n ".fifo" = false →
      resolveSQS id props =
        Except.error
          ("Fifo queue must have name ending with .fifo suffix. Present queue name : " ++ n)) ∧
    (strEndsWith n ".fifo" = true →
      ∃ p, n = p ++ ".fifo" ∧
        getQueueNameForFifoDlq n = Except.ok (p ++ "-dlq" ++ ".fifo")) := by
  constructor
  · intro hends
    have hderive : deriveDlqName props =
        Except.error
          ("Fifo queue must have name ending with .fifo suffix. Present queue name : " ++ n) := by
      unfold deriveDlqName
      rw [hqn, hnodlq]
      simp [jsTruthyStr, hne, hfifo, getQueueNameForFifoDlq, hends]
    have : resolveSQSQueue (1 + 1) id props =
        Except.error
          ("Fifo queue must have name ending with .fifo suffix. Present queue name : " ++ n) := by
      simp only [resolveSQSQueue, hderive]
    exact this
  · intro hends
    have hsuf : (".fifo" : String).data <:+ n.data := by
      have h' := hends
      unfold strEndsWith at h'
      simpa using h'
    obtain ⟨t, ht⟩ := hsuf
    refine ⟨String.mk t, ?_, ?_⟩
    · apply String.ext
      rw [← ht]
      rfl
    · have hdrop : strDropRight n (".fifo" : String).length = String.mk t := by
        unfold strDropRight
        rw [← ht]
        have h5 : ((".fifo" : String).data).length = 5 := rfl
        have hlen : (t ++ (".fifo" : String).data).length - String.length ".fifo" = t.length := by
          rw [List.length_append, h5]
          simp [String.length]
        rw [hlen, List.take_left]
      simp only [getQueueNameForFifoDlq, hends]
      rw [hdrop]
      rfl

/-- C6 as stated is false: a FIFO queue with the explicit queue name ""
(which does not end in ".fifo") constructs without any error, because the
name derivation is guarded by JavaScript truthiness of the queue name. -/
theorem C6_counterexample :
    ({ queueName := some "", fifo := some true } : SQSQueueProps).queueName = some "" ∧
    ({ queueName := some "", fifo := some true } : SQSQueueProps).fifo.getD false = true ∧
    ({ queueName := some "", fifo := some true } : SQSQueueProps).deadLetterQueue = none ∧
    strEndsWith "" ".fifo" = false ∧
    (resolveSQS "Q" { queueName := some "", fifo := some true }).isOk = true := by
  exact ⟨rfl, rfl, rfl, rfl, rfl⟩

/-- Witness for C6 at concrete inputs: a bad fifo name throws, a good one
derives the dlq name with "-dlq" inserted before ".fifo". -/
theorem C6_witness :
    resolveSQS "Q" { queueName := some "bad", fifo := some true } =
      Except.error
        "Fifo queue must have name ending with .fifo suffix. Present queue name : bad" ∧
    getQueueNameForFifoDlq "q.fifo" = Except.ok "q-dlq.fifo" := by
  constructor
  · exact (C6_fifo_dlq_naming "Q" { queueName := some "bad", fifo := some true } "bad"
      rfl (by decide) rfl rfl).1 rfl
  · rfl

/-! ### Claim C3 -/

/-- C3: a derived companion name (`<bucket>-logs`, `<queue>-dlq`) that
exceeds the fixed maximum length (63 for buckets, 80 for queues) is
omitted — the companion is synthesized with no explicit name — and a
derived name within the limit is passed through verbatim, never
truncated. -/
theorem C3_derived_companion_names :
    (∀ id props n, props.bucketName = some n → n ≠ "" →
      props.enableAccessLogging.getD true = true → props.serverAccessLogsBucket = none →
      (((n ++ "-logs").length > MAX_ALLOWED_BUCKET_NAME_LENGTH →
        (resolveBucket id props).serverAccessLogsBucket =
          some (ServerAccessLogs.created none props.requireSecureTransport)) ∧
      ((n ++ "-logs").length ≤ MAX_ALLOWED_BUCKET_NAME_LENGTH →
        (resolveBucket id props).serverAccessLogsBucket =
          some (ServerAccessLogs.created (some (n ++ "-logs")) props.requireSecureTransport)))) ∧
    (∀ id props n q dq m, resolveSQS id props = Except.ok q →
      q.dlq = some (DlqEntry.synthesized dq m) →
      props.queueName = some n → n ≠ "" → props.fifo.getD false = false →
      (((n ++ "-dlq").length > SQS_MAX_ALLOWED_QUEUE_NAME_LENGTH →
        dq.attrs.queueName = none) ∧
      ((n ++ "-dlq").length ≤ SQS_MAX_ALLOWED_QUEUE_NAME_LENGTH →
        dq.attrs.queueName = some (n ++ "-dlq")))) := by
  constructor
  · intro id props n hbn hne hlog hsab
    constructor
    · intro hlen
      have hlen' : MAX_ALLOWED_BUCKET_NAME_LENGTH < n.length + "-logs".length := by
        simpa using hlen
      simp [resolveBucket, hbn, hsab, hlog, jsTruthyStr, hne, hlen']
    · intro hlen
      have hgt' : ¬ MAX_ALLOWED_BUCKET_NAME_LENGTH < n.length + "-logs".length := by
        simp only [String.length_append] at hlen
        omega
      simp [resolveBucket, hbn, hsab, hlog, jsTruthyStr, hne, hgt']
  · intro id props n q dq m h hdlq hqn hne hfifo
    obtain ⟨hp, hen, dname, hdname, hdq, hm⟩ :=
      resolveSQSQueue_synthesized 1 id props q dq m h hdlq
    have hda := resolveSQSQueue_ok_attrs 0 (id ++ "Dlq") (synthDlqProps id props dname) dq hdq
    have hqname : dq.attrs.queueName = dname := by
      rw [hda]
      rfl
    have hderive : deriveDlqName props =
        Except.ok (if (n ++ "-dlq").length > SQS_MAX_ALLOWED_QUEUE_NAME_LENGTH then none
          else some (n ++ "-dlq")) := by
      unfold deriveDlqName
      rw [hqn, hp]
      simp [jsTruthyStr, hne, hfifo]
    rw [hderive] at hdname
    injection hdname with hdname
    constructor
    · intro hlen
      rw [hqname, ← hdname, if_pos hlen]
    · intro hlen
      have hgt : ¬ (n ++ "-dlq").length > SQS_MAX_ALLOWED_QUEUE_NAME_LENGTH := by omega
      rw [hqname, ← hdname, if_neg hgt]

/-- Witness for C3: a 60-character bucket name whose derived log-bucket
name exceeds 63 characters yields an unnamed companion, and a short queue
name yields the verbatim derived dead-letter-queue name. -/
theorem C3_witness :
    (resolveBucket "B"
      { bucketName := some "aaaaaaaaaaaaaaaaaaaaaaaaaaaaaaaaaaaaaaaaaaaaaaaaaaaaaaaaaaaa" }).serverAccessLogsBucket =
      some (ServerAccessLogs.created none none) ∧
    (ResolvedQueue.mk
      { queueName := some "q-dlq", fifo := none, encryption := QueueEncryption.KMS
        encryptionMasterKey := some (MasterKey.created "QKey")
        retentionPeriodDays := 14, requireSecureTransport := true, securePolicyAttached := true }
      none).attrs.queueName = some ("q" ++ "-dlq") := by
  constructor
  · exact (C3_derived_companion_names.1 "B"
      { bucketName := some "aaaaaaaaaaaaaaaaaaaaaaaaaaaaaaaaaaaaaaaaaaaaaaaaaaaaaaaaaaaa" }
      "aaaaaaaaaaaaaaaaaaaaaaaaaaaaaaaaaaaaaaaaaaaaaaaaaaaaaaaaaaaa" rfl (by decide) rfl rfl).1 (by decide)
  · exact (C3_derived_companion_names.2 "Q" { queueName := some "q" } "q" _ _ _
      rfl rfl rfl (by decide) rfl).2 (by decide)

/-! ### Claim C7 -/

/-- C7: with billingMode explicitly PROVISIONED, table construction (and
addGlobalSecondaryIndex on a provisioned table) throws exactly when either
readScalingProps or writeScalingProps is missing; when both are supplied,
unset read/write capacities default to the scaling minCapacity. -/
theorem C7_provisioned_scaling_required :
    (∀ props : DynamoDBTableProps, props.billingMode = some BillingMode.PROVISIONED →
      ((resolveDynamoDBTable props).isOk = false ↔
        (props.readScalingProps = none ∨ props.writeScalingProps = none))) ∧
    (∀ (props : DynamoDBTableProps) t, resolveDynamoDBTable props = Except.ok t →
      (t.usesProvisionedBillingMode = true ↔ props.billingMode = some BillingMode.PROVISIONED)) ∧
    (∀ (props : DynamoDBTableProps) rs ws t,
      props.billingMode = some BillingMode.PROVISIONED →
      props.readScalingProps = some rs → props.writeScalingProps = some ws →
      resolveDynamoDBTable props = Except.ok t →
      (props.readCapacity = none → t.readCapacity = some rs.minCapacity) ∧
      (props.writeCapacity = none → t.writeCapacity = some ws.minCapacity)) ∧
    (∀ props : DynamoDBGlobalSecondaryIndexProps,
      ((addGlobalSecondaryIndex true props).isOk = false ↔
        (props.readScalingProps = none ∨ props.writeScalingProps = none))) ∧
    (∀ (props : DynamoDBGlobalSecondaryIndexProps) rs ws g,
      props.readScalingProps = some rs → props.writeScalingProps = some ws →
      addGlobalSecondaryIndex true props = Except.ok g →
      (props.readCapacity = none → g.readCapacity = some rs.minCapacity) ∧
      (props.writeCapacity = none → g.writeCapacity = some ws.minCapacity)) := by
  refine ⟨?_, ?_, ?_, ?_, ?_⟩
  · intro props hb
    cases hrs : props.readScalingProps <;> cases hws : props.writeScalingProps <;>
      simp [resolveDynamoDBTable, hb, hrs, hws, Except.isOk, Except.toBool]
  · intro props t h
    simp only [resolveDynamoDBTable] at h
    split at h
    · exact absurd h (by simp)
    · injection h with h
      subst h
      simp
  · intro props rs ws t hb hrs hws h
    simp only [resolveDynamoDBTable, hb, hrs, hws] at h
    injection h with h
    subst h
    constructor
    · intro hnone
      simp [jsSpread, jsFalsyNat, hnone]
    · intro hnone
      simp [jsSpread, jsFalsyNat, hnone]
  · intro props
    cases hrs : props.readScalingProps <;> cases hws : props.writeScalingProps <;>
      simp [addGlobalSecondaryIndex, hrs, hws, Except.isOk, Except.toBool]
  · intro props rs ws g hrs hws h
    simp only [addGlobalSecondaryIndex, hrs, hws] at h
    injection h with h
    subst h
    constructor
    · intro hnone
      simp [jsSpread, jsFalsyNat, hnone]
    · intro hnone
      simp [jsSpread, jsFalsyNat, hnone]

/-- Witness for C7 at concrete inputs: a provisioned table without scaling
props fails, one with scaling props succeeds and defaults capacities to
the scaling minima. -/
theorem C7_witness :
    (resolveDynamoDBTable { billingMode := some BillingMode.PROVISIONED }).isOk = false ∧
    resolveDynamoDBTable
      { billingMode := some BillingMode.PROVISIONED
        readScalingProps := some { minCapacity := 2, maxCapacity := 10 }
        writeScalingProps := some { minCapacity := 3, maxCapacity := 12 } } =
      Except.ok
        { billingMode := BillingMode.PROVISIONED
          encryption := TableEncryption.CUSTOMER_MANAGED
          pointInTimeRecovery := true
          deletionProtection := true
          readCapacity := some 2
          writeCapacity := some 3
          usesProvisionedBillingMode := true
          autoScalingConfigured := true } ∧
    ({ billingMode := BillingMode.PROVISIONED
       encryption := TableEncryption.CUSTOMER_MANAGED
       pointInTimeRecovery := true
       deletionProtection := true
       readCapacity := some 2
       writeCapacity := some 3
       usesProvisionedBillingMode := true
       autoScalingConfigured := true } : ResolvedTable).readCapacity =
      some ({ minCapacity := 2, maxCapacity := 10 } : EnableScalingProps).minCapacity ∧
    ((addGlobalSecondaryIndex true { indexName := "gsi" }).isOk = false) := by
  refine ⟨(C7_provisioned_scaling_required.1 _ rfl).mpr (Or.inl rfl), rfl, ?_,
    (C7_provisioned_scaling_required.2.2.2.1 _).mpr (Or.inl rfl)⟩
  exact (C7_provisioned_scaling_required.2.2.1
    { billingMode := some BillingMode.PROVISIONED
      readScalingProps := some { minCapacity := 2, maxCapacity := 10 }
      writeScalingProps := some { minCapacity := 3, maxCapacity := 12 } }
    { minCapacity := 2, maxCapacity := 10 } { minCapacity := 3, maxCapacity := 12 }
    _ rfl rfl rfl rfl).1 rfl

/-! ### Claim C8 -/

/-- C8 (amended): every explicitly supplied field is forwarded unchanged to
the underlying provisioning primitive by Bucket, SQSQueue, SnsTopic and
DynamoDBTable (whose defaults use `??`, `=== undefined` checks, or
spread-last object merges), with two exceptions, both in AlbFargateService:
its numeric fields desiredCount, minHealthyPercent and maxHealthyPercent
are resolved with JavaScript `||`, so an explicitly supplied 0 is replaced
by the default (1, 100 and 200 respectively); and serviceName is forwarded
through the truthiness-guarded spread
`...(props.serviceName && { serviceName })`, so an explicitly supplied
empty string is omitted.  All other AlbFargateService fields, and all
non-zero / non-empty values of the exceptional ones, are forwarded
unchanged. -/
theorem C8_explicit_fields_forwarded :
    (∀ id props,
      (resolveBucket id props).bucketName = props.bucketName ∧
      (∀ e, props.encryption = some e → (resolveBucket id props).encryption = e) ∧
      (∀ k, props.encryptionKey = some k → (resolveBucket id props).encryptionKey = some k) ∧
      (∀ b, props.serverAccessLogsBucket = some b →
        (resolveBucket id props).serverAccessLogsBucket = some (ServerAccessLogs.provided b)) ∧
      (∀ v, props.versioned = some v → (resolveBucket id props).versioned = v) ∧
      (∀ rs, props.lifecycleRules = some rs →
        (resolveBucket id props).lifecycleRules = some rs) ∧
      (∀ bpa, props.blockPublicAccess = some bpa →
        (resolveBucket id props).blockPublicAccess = bpa)) ∧
    (∀ id props q, resolveSQS id props = Except.ok q →
      q.attrs.queueName = props.queueName ∧
      q.attrs.fifo = props.fifo ∧
      (∀ e, props.encryption = some e → q.attrs.encryption = e) ∧
      (∀ k, props.encryptionMasterKey = some k → q.attrs.encryptionMasterKey = some k) ∧
      (∀ d, props.retentionPeriodDays = some d → q.attrs.retentionPeriodDays = d) ∧
      (∀ b, props.requireSecureTransport = some b → q.attrs.requireSecureTransport = b) ∧
      (∀ p, props.deadLetterQueue = some p → q.dlq = some (DlqEntry.provided p))) ∧
    (∀ id props k, props.masterKey = some k →
      (resolveSnsTopic id props).masterKey = some k) ∧
    (∀ (props : DynamoDBTableProps) t, resolveDynamoDBTable props = Except.ok t →
      (∀ b, props.billingMode = some b → t.billingMode = b) ∧
      (∀ e, props.encryption = some e → t.encryption = e) ∧
      (∀ v, props.pointInTimeRecovery = some v → t.pointInTimeRecovery = v) ∧
      (∀ v, props.deletionProtection = some v → t.deletionProtection = v) ∧
      (∀ v, props.readCapacity = some v → t.readCapacity = some v) ∧
      (∀ v, props.writeCapacity = some v → t.writeCapacity = some v)) ∧
    (∀ props : AlbFargateServiceProps,
      (∀ v, props.platformVersion = some v →
        (resolveAlbFargateService props).platformVersion = v) ∧
      (∀ v, props.healthCheckGracePeriodSeconds = some v →
        (resolveAlbFargateService props).healthCheckGracePeriodSeconds = v) ∧
      (∀ n, props.desiredCount = some n → n ≠ 0 →
        (resolveAlbFargateService props).desiredCount = n) ∧
      (∀ n, props.minHealthyPercent = some n → n ≠ 0 →
        (resolveAlbFargateService props).minHealthyPercent = n) ∧
      (∀ n, props.maxHealthyPercent = some n → n ≠ 0 →
        (resolveAlbFargateService props).maxHealthyPercent = n) ∧
      (∀ s, props.serviceName = some s → s ≠ "" →
        (resolveAlbFargateService props).serviceName = some s) ∧
      (props.desiredCount = some 0 →
        (resolveAlbFargateService props).desiredCount = DEFAULT_TASK_COUNT) ∧
      (props.minHealthyPercent = some 0 →
        (resolveAlbFargateService props).minHealthyPercent = DEFAULT_MIN_HEALTHY_PERCENT) ∧
      (props.maxHealthyPercent = some 0 →
        (resolveAlbFargateService props).maxHealthyPercent = DEFAULT_MAX_HEALTHY_PERCENT) ∧
      (props.serviceName = some "" →
        (resolveAlbFargateService props).serviceName = none)) := by
  refine ⟨?_, ?_, ?_, ?_, ?_⟩
  · intro id props
    refine ⟨rfl, ?_, ?_, ?_, ?_, ?_, ?_⟩
    · intro e he
      simp [resolveBucket, he]
    · intro k hk
      simp [resolveBucket, hk]
    · intro b hb
      simp [resolveBucket, hb]
    · intro v hv
      simp [resolveBucket, hv]
    · intro rs hrs
      simp [resolveBucket, hrs]
    · intro bpa hbpa
      simp [resolveBucket, hbpa]
  · intro id props q h
    have ha := resolveSQSQueue_ok_attrs 1 id props q h
    have hd := resolveSQSQueue_ok_dlq 1 id props q h
    rw [ha]
    refine ⟨rfl, rfl, ?_, ?_, ?_, ?_, ?_⟩
    · intro e he
      simp [sqsAttrs, sqsResolvedEncryption, he]
    · intro k hk
      simp [sqsAttrs, sqsResolvedMasterKey, hk]
    · intro d hd'
      simp [sqsAttrs, hd']
    · intro b hb
      simp [sqsAttrs, sqsResolvedSecureTransport, hb]
    · intro p hp
      exact hd.1 p hp
  · intro id props k hk
    simp [resolveSnsTopic, hk]
  · intro props t h
    simp only [resolveDynamoDBTable] at h
    split at h
    · exact absurd h (by simp)
    · injection h with h
      subst h
      refine ⟨?_, ?_, ?_, ?_, ?_, ?_⟩
      · intro b hb
        simp [hb]
      · intro e he
        simp [he]
      · intro v hv
        simp [hv]
      · intro v hv
        simp [hv]
      · intro v hv
        simp [jsSpread, hv]
      · intro v hv
        simp [jsSpread, hv]
  · intro props
    refine ⟨?_, ?_, ?_, ?_, ?_, ?_, ?_, ?_, ?_, ?_⟩
    · intro v hv
      simp [resolveAlbFargateService, hv]
    · intro v hv
      simp [resolveAlbFargateService, hv]
    · intro n hn hnz
      simp [resolveAlbFargateService, jsOrNat, hn, hnz]
    · intro n hn hnz
      simp [resolveAlbFargateService, jsOrNat, hn, hnz]
    · intro n hn hnz
      simp [resolveAlbFargateService, jsOrNat, hn, hnz]
    · intro s hs hne
      simp [resolveAlbFargateService, jsTruthyStr, hs, hne]
    · intro hn
      simp [resolveAlbFargateService, jsOrNat, hn]
    · intro hn
      simp [resolveAlbFargateService, jsOrNat, hn]
    · intro hn
      simp [resolveAlbFargateService, jsOrNat, hn]
    · intro hs
      simp [resolveAlbFargateService, jsTruthyStr, hs]

/-- C8 as stated is false on two counts, both in AlbFargateService: an
explicitly supplied minHealthyPercent of 0 is replaced by the default 100
(the field is resolved with JavaScript `||` rather than `??`), and an
explicitly supplied empty serviceName is dropped entirely (the field is
forwarded through a truthiness-guarded spread). -/
theorem C8_counterexample :
    ({ minHealthyPercent := some 0 } : AlbFargateServiceProps).minHealthyPercent = some 0 ∧
    (resolveAlbFargateService { minHealthyPercent := some 0 }).minHealthyPercent = 100 ∧
    (100 : Nat) ≠ 0 ∧
    ({ serviceName := some "" } : AlbFargateServiceProps).serviceName = some "" ∧
    (resolveAlbFargateService { serviceName := some "" }).serviceName = none ∧
    (none : Option String) ≠ some "" := by
  exact ⟨rfl, rfl, by decide, rfl, rfl, by decide⟩

/-- Witness for C8 at concrete inputs, exercising every wrapper and both
AlbFargateService exceptions. -/
theorem C8_witness :
    (resolveBucket "B" { encryption := some BucketEncryption.S3_MANAGED }).encryption =
      BucketEncryption.S3_MANAGED ∧
    ((resolveSQS "Q" { retentionPeriodDays := some 5 }).map
      (fun q => q.attrs.retentionPeriodDays) = Except.ok 5) ∧
    (resolveSnsTopic "T" { masterKey := some (MasterKey.provided 1) }).masterKey =
      some (MasterKey.provided 1) ∧
    ((resolveDynamoDBTable { readCapacity := some 7 }).map
      (fun t => t.readCapacity) = Except.ok (some 7)) ∧
    (resolveAlbFargateService { desiredCount := some 3 }).desiredCount = 3 ∧
    (resolveAlbFargateService { maxHealthyPercent := some 0 }).maxHealthyPercent =
      DEFAULT_MAX_HEALTHY_PERCENT ∧
    (resolveAlbFargateService { serviceName := some "svc" }).serviceName = some "svc" ∧
    (resolveAlbFargateService { serviceName := some "" }).serviceName = none := by
  refine ⟨(C8_explicit_fields_forwarded.1 "B" _).2.1 _ rfl, ?_,
    C8_explicit_fields_forwarded.2.2.1 "T" _ _ rfl, ?_,
    (C8_explicit_fields_forwarded.2.2.2.2 _).2.2.1 3 rfl (by decide),
    (C8_explicit_fields_forwarded.2.2.2.2 _).2.2.2.2.2.2.2.2.1 rfl,
    (C8_explicit_fields_forwarded.2.2.2.2 _).2.2.2.2.2.1 "svc" rfl (by decide),
    (C8_explicit_fields_forwarded.2.2.2.2 _).2.2.2.2.2.2.2.2.2 rfl⟩
  · have h := ((C8_explicit_fields_forwarded.2.1 "Q" { retentionPeriodDays := some 5 } _
      rfl).2.2.2.2.1) 5 rfl
    rw [← h]
    rfl
  · have h := (C8_explicit_fields_forwarded.2.2.2.1 { readCapacity := some 7 } _
      rfl).2.2.2.2.1 7 rfl
    rw [← h]
    rfl
